import Mathlib

/-!
Shallow embedding of the SOCKS5 client in `src/lib.rs` (async-socks5).

The transport (`TcpStream`) is modelled as an `IOState`: a list of bytes the
proxy will deliver (`input`) and the bytes the client has written so far
(`output`).  Bytes are `Nat`s; Rust's `as u8` truncation is `% 256` and
`u16::to_be_bytes` is `u16be`.  Each async method of `Socks5Client` becomes a
pure function from `IOState` to a result paired with the final `IOState`.
`Res.panicked` marks the one place the source can abort (the
`try_into().unwrap()` on the domain length in `connect_with_domain`).
-/

namespace Socks5

/-- `Socks5Error` from the source (the `IoError` payload is dropped). -/
inductive Socks5Error where
  | HandshakeFailed
  | ConnectionFailed
  | UnexpectedResponse
  | UnsupportedAddressType
  | AuthenticationFailed
  | IoError
deriving DecidableEq, Repr

/-- `AddrType` from the source. -/
inductive AddrType where
  | IPv4
  | DomainName
  | IPv6

/-- `AddrType::as_byte` from the source. -/
def AddrType.as_byte : AddrType → Nat
  | .IPv4 => 0x01
  | .DomainName => 0x03
  | .IPv6 => 0x04

/-- The transport: bytes still to be read from the proxy, bytes written so far. -/
structure IOState where
  input : List Nat
  output : List Nat
deriving DecidableEq, Repr

/-- Outcome of one client operation: success, a typed error, or a process abort. -/
inductive Res (α : Type) where
  | ok (a : α)
  | err (e : Socks5Error)
  | panicked
deriving DecidableEq, Repr

/-- `AsyncReadExt::read_exact`: consume exactly `n` bytes or fail. -/
def readExact : Nat → IOState → Option (List Nat × IOState)
  | 0, s => some ([], s)
  | n + 1, s =>
    match s.input with
    | [] => none
    | b :: tl =>
      match readExact n ⟨tl, s.output⟩ with
      | none => none
      | some (bs, s2) => some (b :: bs, s2)

/-- `AsyncWriteExt::write_all` on a reliable transport. -/
def writeAll (bs : List Nat) (s : IOState) : IOState :=
  ⟨s.input, s.output ++ bs⟩

/-- `u16::to_be_bytes`. -/
def u16be (p : Nat) : List Nat :=
  [p / 256 % 256, p % 256]

/-- The auth request built at lib.rs:84-88: version byte, then a length byte
computed with `as u8` (wrapping `% 256`), the username bytes, another wrapped
length byte, the password bytes. -/
def authRequestBytes (creds : List Nat × List Nat) : List Nat :=
  0x01 :: (creds.1.length % 256) :: (creds.1 ++ (creds.2.length % 256) :: creds.2)

/-- `Socks5Client::authenticate` (lib.rs:80-100). -/
def authenticate (creds : List Nat × List Nat) (s : IOState) : Res Unit × IOState :=
  let s1 := writeAll (authRequestBytes creds) s
  match readExact 2 s1 with
  | none => (.err .IoError, s1)
  | some (response, s2) =>
    if response.getD 1 0 ≠ 0x00 then (.err .AuthenticationFailed, s2)
    else (.ok (), s2)

/-- The greeting chosen at lib.rs:108-112. -/
def greetingBytes (credentials : Option (List Nat × List Nat)) : List Nat :=
  if credentials.isSome then [0x05, 0x02, 0x00, 0x02] else [0x05, 0x01, 0x00]

/-- `Socks5Client::handshake` (lib.rs:104-133). -/
def handshake (credentials : Option (List Nat × List Nat)) (s : IOState) :
    Res Unit × IOState :=
  let s1 := writeAll (greetingBytes credentials) s
  match readExact 2 s1 with
  | none => (.err .IoError, s1)
  | some (response, s2) =>
    match response.getD 1 0 with
    | 0x00 => (.ok (), s2)
    | 0x02 =>
      match credentials with
      | some creds => authenticate creds s2
      | none => (.err .AuthenticationFailed, s2)
    | _ => (.err .HandshakeFailed, s2)

/-- `std::net::IpAddr`, octets already extracted as in `ip.octets()`. -/
inductive IpAddr where
  | V4 (octets : List Nat)
  | V6 (octets : List Nat)

/-- `std::net::SocketAddr`. -/
structure SocketAddr where
  ip : IpAddr
  port : Nat

/-- The CONNECT request built at lib.rs:150-163. -/
def connectRequestBytes (target : SocketAddr) : List Nat :=
  [0x05, 0x01, 0x00] ++
    (match target.ip with
      | .V4 o => AddrType.IPv4.as_byte :: o
      | .V6 o => AddrType.IPv6.as_byte :: o) ++
    u16be target.port

/-- `Socks5Client::connect` (lib.rs:139-175), starting from the opened
transport: it reads a fixed `vec![0u8; 10]` reply buffer. -/
def connect (target : SocketAddr) (credentials : Option (List Nat × List Nat))
    (s : IOState) : Res Unit × IOState :=
  match handshake credentials s with
  | (.ok _, s1) =>
    let s2 := writeAll (connectRequestBytes target) s1
    match readExact 10 s2 with
    | none => (.err .IoError, s2)
    | some (response, s3) =>
      if response.getD 1 0 ≠ 0x00 then (.err .ConnectionFailed, s3)
      else (.ok (), s3)
  | (r, s1) => (r, s1)

/-- The domain-form CONNECT request built at lib.rs:194-202 (for a domain whose
length fits the length byte). -/
def domainRequestBytes (domain : List Nat) (port : Nat) : List Nat :=
  [0x05, 0x01, 0x00, AddrType.DomainName.as_byte, domain.length] ++ domain ++ u16be port

/-- `Socks5Client::connect_with_domain` (lib.rs:182-214), starting from the
opened transport.  `domain.len().try_into().unwrap()` aborts the process when
the domain exceeds 255 bytes, modelled as `Res.panicked`; it too reads a fixed
`vec![0u8; 10]` reply buffer. -/
def connect_with_domain (domain : List Nat) (port : Nat)
    (credentials : Option (List Nat × List Nat)) (s : IOState) : Res Unit × IOState :=
  match handshake credentials s with
  | (.ok _, s1) =>
    if domain.length ≤ 255 then
      let s2 := writeAll (domainRequestBytes domain port) s1
      match readExact 10 s2 with
      | none => (.err .IoError, s2)
      | some (response, s3) =>
        if response.getD 1 0 ≠ 0x00 then (.err .ConnectionFailed, s3)
        else (.ok (), s3)
    else (.panicked, s1)
  | (r, s1) => (r, s1)

/-- Follows the spec's words (reply-parsing rule of section 4.3): a CONNECT
reply is a 4-byte header, then the address bytes the address-type byte demands
(4 for IPv4 tag 0x01, 16 for IPv6 tag 0x04, 1 + domain-length for tag 0x03),
then 2 port bytes. -/
def specConnectReplyByteCount (atyp domainLen : Nat) : Nat :=
  4 + (if atyp = 0x01 then 4 else if atyp = 0x04 then 16 else 1 + domainLen) + 2

/-- A 22-byte synthetic CONNECT reply whose address-type byte is 0x04 (IPv6). -/
def ipv6ReplyBytes : List Nat :=
  [0x05, 0x00, 0x00, 0x04] ++ List.replicate 16 0xAA ++ [0x01, 0xBB]

/-- A successful `readExact` never changes the written output. -/
theorem readExact_output (n : Nat) :
    ∀ s bs s2, readExact n s = some (bs, s2) → s2.output = s.output := by
  induction n with
  | zero =>
    intro s bs s2 h
    simp [readExact] at h
    simp [h.2.symm]
  | succ n ih =>
    intro s bs s2 h
    match hin : s.input with
    | [] => simp [readExact, hin] at h
    | b :: tl =>
      simp only [readExact, hin] at h
      match hr : readExact n ⟨tl, s.output⟩ with
      | none => simp [hr] at h
      | some (bs2, s3) =>
        simp only [hr, Option.some.injEq, Prod.mk.injEq] at h
        have := ih ⟨tl, s.output⟩ bs2 s3 hr
        simp [← h.2, this]

/-- `authenticate` only appends to the output already written. -/
theorem authenticate_output_extends (c : List Nat × List Nat) (s : IOState) :
    ∃ t, (authenticate c s).2.output = s.output ++ t := by
  refine ⟨authRequestBytes c, ?_⟩
  rcases hr : readExact 2 (writeAll (authRequestBytes c) s) with _ | ⟨response, s2⟩
  · simp only [authenticate, hr]
    simp [writeAll]
  · have hout := readExact_output 2 _ _ _ hr
    simp only [writeAll] at hout
    simp only [authenticate, hr]
    split <;> simpa using hout

set_option maxRecDepth 8000 in
/-- C1: on a 256-byte domain, `connect_with_domain` (after a successful
no-auth handshake, reply bytes `05 00`) aborts the process at the
`try_into().unwrap()` on the length byte — it does not return the typed
`UnsupportedAddressType` error the claim requires; only the greeting has been
written when the abort happens. -/
theorem connect_with_domain_256_domain_panics :
    connect_with_domain (List.replicate 256 0x61) 443 none ⟨[0x05, 0x00], []⟩
      = (Res.panicked, ⟨[], [0x05, 0x01, 0x00]⟩) := by decide

set_option maxRecDepth 8000 in
/-- C3: a 256-byte username wraps the 1-byte length field to `0x00`
(`len() as u8`) and the malformed request is still sent on the transport —
the operation does not fail before bytes are sent (here the proxy answers
`01 00` and the stage even reports success). -/
theorem authenticate_256_username_wraps_and_sends :
    authenticate (List.replicate 256 0x75, [0x70]) ⟨[0x01, 0x00], []⟩
      = (Res.ok (), ⟨[], 0x01 :: 0x00 :: (List.replicate 256 0x75 ++ [0x01, 0x70])⟩) := by
  decide

/-- C2: the spec demands that a reply with address-type `0x04` be parsed by
consuming 4 + 16 + 2 = 22 bytes, but `connect` reads a fixed 10-byte buffer:
on a 22-byte IPv6-typed reply it reports success having consumed only 10
bytes, leaving the final 12 bytes of the reply unread on the stream. -/
theorem connect_reads_fixed_ten_bytes :
    specConnectReplyByteCount 0x04 0 = 22 ∧
    ipv6ReplyBytes.length = 22 ∧
    connect ⟨IpAddr.V4 [127, 0, 0, 1], 80⟩ none ⟨[0x05, 0x00] ++ ipv6ReplyBytes, []⟩
      = (Res.ok (), ⟨ipv6ReplyBytes.drop 10,
          [0x05, 0x01, 0x00] ++ [0x05, 0x01, 0x00, 0x01, 127, 0, 0, 1, 0, 80]⟩) ∧
    (ipv6ReplyBytes.drop 10).length = 12 := by decide

/-- C4: on a 2-byte negotiation reply `[v, m]`, `handshake` dispatches on the
selected-method byte `m`: `0x00` proceeds with no authentication, `0x02` with
credentials delegates to `authenticate`, `0x02` without credentials yields
`AuthenticationFailed`, and any other method yields `HandshakeFailed`. -/
theorem handshake_method_dispatch (v m : Nat) (rest : List Nat)
    (credentials : Option (List Nat × List Nat)) :
    (m = 0x00 →
      handshake credentials ⟨v :: m :: rest, []⟩
        = (Res.ok (), ⟨rest, greetingBytes credentials⟩)) ∧
    (m = 0x02 → ∀ creds, credentials = some creds →
      handshake credentials ⟨v :: m :: rest, []⟩
        = authenticate creds ⟨rest, greetingBytes credentials⟩) ∧
    (m = 0x02 → credentials = none →
      handshake credentials ⟨v :: m :: rest, []⟩
        = (Res.err Socks5Error.AuthenticationFailed, ⟨rest, greetingBytes credentials⟩)) ∧
    (m ≠ 0x00 → m ≠ 0x02 →
      handshake credentials ⟨v :: m :: rest, []⟩
        = (Res.err Socks5Error.HandshakeFailed, ⟨rest, greetingBytes credentials⟩)) := by
  refine ⟨?_, ?_, ?_, ?_⟩
  · rintro rfl
    simp [handshake, writeAll, readExact]
  · rintro rfl creds rfl
    simp [handshake, writeAll, readExact]
  · rintro rfl rfl
    simp [handshake, writeAll, readExact]
  · intro h0 h2
    match m, h0, h2 with
    | 1, _, _ => simp [handshake, writeAll, readExact]
    | n + 3, _, _ => simp [handshake, writeAll, readExact]

/-- C4 witness: a negotiation reply selecting method `0xFF` makes the
handshake fail with `HandshakeFailed`. -/
theorem handshake_method_dispatch_witness :
    handshake none ⟨[0x05, 0xFF], []⟩
      = (Res.err Socks5Error.HandshakeFailed, ⟨[], [0x05, 0x01, 0x00]⟩) :=
  (handshake_method_dispatch 0x05 0xFF [] none).2.2.2 (by decide) (by decide)

/-- C8: on a 2-byte authentication reply `[v, st]`, `authenticate` succeeds
exactly when the status byte `st` is `0x00`; any nonzero status yields
`AuthenticationFailed`. -/
theorem authenticate_status_check (u p : List Nat) (v st : Nat) (rest : List Nat) :
    (authenticate (u, p) ⟨v :: st :: rest, []⟩).1
      = if st = 0x00 then Res.ok () else Res.err Socks5Error.AuthenticationFailed := by
  by_cases h : st = 0x00 <;> simp [authenticate, writeAll, readExact, h]

/-- C5: the CONNECT request for an IPv4 target `A.B.C.D:P` is exactly
`05 01 00 01 A B C D Phi Plo` (big-endian port), and for an IPv6 target the
address-type byte is `0x04` followed by the 16 octets and the port; `connect`
writes exactly the greeting followed by these request bytes. -/
theorem connect_request_wire_format (a b c d p : Nat) (o : List Nat) (rest : List Nat) :
    connectRequestBytes ⟨IpAddr.V4 [a, b, c, d], p⟩
      = [0x05, 0x01, 0x00, 0x01, a, b, c, d, p / 256 % 256, p % 256] ∧
    connectRequestBytes ⟨IpAddr.V6 o, p⟩
      = [0x05, 0x01, 0x00, 0x04] ++ o ++ [p / 256 % 256, p % 256] ∧
    (connect ⟨IpAddr.V4 [a, b, c, d], p⟩ none ⟨0x05 :: 0x00 :: rest, []⟩).2.output
      = [0x05, 0x01, 0x00]
          ++ [0x05, 0x01, 0x00, 0x01, a, b, c, d, p / 256 % 256, p % 256] := by
  refine ⟨by simp [connectRequestBytes, u16be, AddrType.as_byte],
          by simp [connectRequestBytes, u16be, AddrType.as_byte], ?_⟩
  have hh : handshake none ⟨0x05 :: 0x00 :: rest, []⟩
      = (Res.ok (), ⟨rest, [0x05, 0x01, 0x00]⟩) := by
    simp [handshake, writeAll, readExact, greetingBytes]
  unfold connect
  rw [hh]
  rcases hr : readExact 10
      (writeAll (connectRequestBytes ⟨IpAddr.V4 [a, b, c, d], p⟩)
        ⟨rest, [0x05, 0x01, 0x00]⟩) with _ | ⟨resp, s3⟩
  · simp [writeAll, connectRequestBytes, u16be, AddrType.as_byte] at hr
    simp [hr, writeAll, connectRequestBytes, u16be, AddrType.as_byte]
  · have hout := readExact_output 10 _ _ _ hr
    simp only [writeAll] at hout
    simp only [hr]
    split <;> simp [hout, connectRequestBytes, u16be, AddrType.as_byte]

/-- C6: for a domain of at most 255 bytes, `connect_with_domain` writes the
greeting and then exactly `05 01 00 03`, the length byte, the raw domain
bytes, and the 2 big-endian port bytes. -/
theorem connect_with_domain_request_wire_format (d : List Nat) (p : Nat)
    (rest : List Nat) (h : d.length ≤ 255) :
    (connect_with_domain d p none ⟨0x05 :: 0x00 :: rest, []⟩).2.output
      = [0x05, 0x01, 0x00]
          ++ ([0x05, 0x01, 0x00, 0x03, d.length] ++ d ++ [p / 256 % 256, p % 256]) := by
  have hh : handshake none ⟨0x05 :: 0x00 :: rest, []⟩
      = (Res.ok (), ⟨rest, [0x05, 0x01, 0x00]⟩) := by
    simp [handshake, writeAll, readExact, greetingBytes]
  unfold connect_with_domain
  rw [hh]
  rcases hr : readExact 10
      (writeAll (domainRequestBytes d p) ⟨rest, [0x05, 0x01, 0x00]⟩) with _ | ⟨resp, s3⟩
  · simp [writeAll, domainRequestBytes, u16be, AddrType.as_byte] at hr
    simp [h, hr, writeAll, domainRequestBytes, u16be, AddrType.as_byte]
  · have hout := readExact_output 10 _ _ _ hr
    simp only [writeAll] at hout
    simp only [h, if_true, hr]
    split <;> simp [hout, domainRequestBytes, u16be, AddrType.as_byte]

/-- C6 witness: for the domain "example.com" (bytes
`65 78 61 6D 70 6C 65 2E 63 6F 6D`) and port 443 the request written after the
greeting is exactly `05 01 00 03 0B 65 78 61 6D 70 6C 65 2E 63 6F 6D 01 BB`. -/
theorem connect_with_domain_request_wire_format_witness :
    (connect_with_domain
        [0x65, 0x78, 0x61, 0x6D, 0x70, 0x6C, 0x65, 0x2E, 0x63, 0x6F, 0x6D] 443 none
        ⟨[0x05, 0x00], []⟩).2.output
      = [0x05, 0x01, 0x00]
          ++ [0x05, 0x01, 0x00, 0x03, 0x0B, 0x65, 0x78, 0x61, 0x6D, 0x70, 0x6C, 0x65,
              0x2E, 0x63, 0x6F, 0x6D, 0x01, 0xBB] := by
  have h := connect_with_domain_request_wire_format
    [0x65, 0x78, 0x61, 0x6D, 0x70, 0x6C, 0x65, 0x2E, 0x63, 0x6F, 0x6D] 443 [] (by decide)
  simpa using h

/-- C7: the greeting is exactly `05 01 00` without credentials and
`05 02 00 02` with credentials; every method byte offered (the bytes after
version and count) is `0x00` or `0x02`; and whatever `handshake` writes on the
transport starts with this greeting. -/
theorem greeting_wire_format (c : List Nat × List Nat)
    (credentials : Option (List Nat × List Nat)) (input : List Nat) :
    greetingBytes none = [0x05, 0x01, 0x00] ∧
    greetingBytes (some c) = [0x05, 0x02, 0x00, 0x02] ∧
    (∀ m ∈ (greetingBytes credentials).drop 2, m = 0x00 ∨ m = 0x02) ∧
    (∃ t, (handshake credentials ⟨input, []⟩).2.output
        = greetingBytes credentials ++ t) := by
  refine ⟨rfl, rfl, ?_, ?_⟩
  · intro m hm
    cases credentials <;> simp [greetingBytes] at hm <;> omega
  · rcases credentials with _ | creds
    · rcases hr : readExact 2 (writeAll (greetingBytes none) ⟨input, []⟩)
        with _ | ⟨resp, s2⟩
      · refine ⟨[], ?_⟩
        simp [writeAll] at hr
        simp [handshake, writeAll, hr]
      · have hout := readExact_output 2 _ _ _ hr
        simp only [writeAll, List.nil_append] at hout
        simp only [handshake, hr]
        split <;> exact ⟨[], by simpa using hout⟩
    · rcases hr : readExact 2 (writeAll (greetingBytes (some creds)) ⟨input, []⟩)
        with _ | ⟨resp, s2⟩
      · refine ⟨[], ?_⟩
        simp [writeAll] at hr
        simp [handshake, writeAll, hr]
      · have hout := readExact_output 2 _ _ _ hr
        simp only [writeAll, List.nil_append] at hout
        simp only [handshake, hr]
        split
        · exact ⟨[], by simpa using hout⟩
        · obtain ⟨t, ht⟩ := authenticate_output_extends creds s2
          exact ⟨t, by simpa [hout] using ht⟩
        · exact ⟨[], by simpa using hout⟩

/-- C7 witness: with credentials the greeting is `05 02 00 02`, and the
method byte `0x02` it offers is one of the two supported methods. -/
theorem greeting_wire_format_witness :
    greetingBytes (some ([0x75], [0x70])) = [0x05, 0x02, 0x00, 0x02] ∧
    (0x02 = 0x00 ∨ 0x02 = 0x02) :=
  ⟨(greeting_wire_format ([0x75], [0x70]) none []).2.1,
   (greeting_wire_format ([0x75], [0x70]) (some ([0x75], [0x70])) []).2.2.1
     0x02 (by decide)⟩

/-- C9: on a CONNECT reply whose status byte is `st`, both `connect` and
`connect_with_domain` succeed exactly when `st = 0x00` and fail with
`ConnectionFailed` otherwise (the rest of the 10-byte reply buffer is read and
discarded either way). -/
theorem connect_reply_status (tgt : SocketAddr) (d : List Nat) (p : Nat)
    (r0 st r2 r3 r4 r5 r6 r7 r8 r9 : Nat) (rest : List Nat) (h : d.length ≤ 255) :
    (connect tgt none
        ⟨0x05 :: 0x00 :: r0 :: st :: r2 :: r3 :: r4 :: r5 :: r6 :: r7 :: r8 :: r9 :: rest,
          []⟩).1
      = (if st = 0x00 then Res.ok () else Res.err Socks5Error.ConnectionFailed) ∧
    (connect_with_domain d p none
        ⟨0x05 :: 0x00 :: r0 :: st :: r2 :: r3 :: r4 :: r5 :: r6 :: r7 :: r8 :: r9 :: rest,
          []⟩).1
      = (if st = 0x00 then Res.ok () else Res.err Socks5Error.ConnectionFailed) := by
  constructor <;> by_cases hst : st = 0x00 <;>
    simp [connect, connect_with_domain, handshake, greetingBytes, writeAll, readExact,
      h, hst]

/-- C9 witness: a reply with status `0x05` (connection refused) makes
`connect` fail with `ConnectionFailed`. -/
theorem connect_reply_status_witness :
    (connect ⟨IpAddr.V4 [127, 0, 0, 1], 80⟩ none
        ⟨[0x05, 0x00, 0x05, 0x05, 0x00, 0x01, 0x7F, 0x00, 0x00, 0x01, 0x00, 0x50], []⟩).1
      = Res.err Socks5Error.ConnectionFailed := by
  have hx := connect_reply_status ⟨IpAddr.V4 [127, 0, 0, 1], 80⟩ [0x61] 80
    0x05 0x05 0x00 0x01 0x7F 0x00 0x00 0x01 0x00 0x50 [] (by decide)
  simpa using hx.1

/-- C10: the version-echo byte is never validated: two proxy byte-streams that
differ only in the first byte of the negotiation reply, of the authentication
reply, or of the CONNECT reply drive `handshake`, `authenticate`, `connect`
and `connect_with_domain` to identical results. -/
theorem version_echo_ignored (credentials : Option (List Nat × List Nat))
    (c : List Nat × List Nat) (tgt : SocketAddr) (d : List Nat) (p : Nat)
    (b1 b2 m : Nat) (t1 t2 t3 t4 t5 t6 t7 t8 t9 : Nat) (rest : List Nat) :
    handshake credentials ⟨b1 :: m :: rest, []⟩
      = handshake credentials ⟨b2 :: m :: rest, []⟩ ∧
    authenticate c ⟨b1 :: m :: rest, []⟩ = authenticate c ⟨b2 :: m :: rest, []⟩ ∧
    connect tgt none
        ⟨0x05 :: 0x00 :: b1 :: t1 :: t2 :: t3 :: t4 :: t5 :: t6 :: t7 :: t8 :: t9 :: rest,
          []⟩
      = connect tgt none
        ⟨0x05 :: 0x00 :: b2 :: t1 :: t2 :: t3 :: t4 :: t5 :: t6 :: t7 :: t8 :: t9 :: rest,
          []⟩ ∧
    (d.length ≤ 255 →
      connect_with_domain d p none
          ⟨0x05 :: 0x00 :: b1 :: t1 :: t2 :: t3 :: t4 :: t5 :: t6 :: t7 :: t8 :: t9 :: rest,
            []⟩
        = connect_with_domain d p none
          ⟨0x05 :: 0x00 :: b2 :: t1 :: t2 :: t3 :: t4 :: t5 :: t6 :: t7 :: t8 :: t9 :: rest,
            []⟩) := by
  refine ⟨rfl, rfl, rfl, fun h => ?_⟩
  simp [connect_with_domain, handshake, greetingBytes, writeAll, readExact,
    domainRequestBytes, h]

/-- C10 witness: flipping the version-echo byte of the negotiation reply from
`0x00` to `0xFF`, or of the connect reply from `0x00` to `0xFF`, leaves the
outcome unchanged. -/
theorem version_echo_ignored_witness :
    handshake none ⟨[0x00, 0x00], []⟩ = handshake none ⟨[0xFF, 0x00], []⟩ ∧
    connect_with_domain [0x61] 80 none
        ⟨[0x05, 0x00, 0x00, 0, 0, 0, 0, 0, 0, 0, 0, 0], []⟩
      = connect_with_domain [0x61] 80 none
        ⟨[0x05, 0x00, 0xFF, 0, 0, 0, 0, 0, 0, 0, 0, 0], []⟩ :=
  ⟨(version_echo_ignored none ([], []) ⟨IpAddr.V4 [127, 0, 0, 1], 80⟩ [0x61] 80
      0x00 0xFF 0x00 0 0 0 0 0 0 0 0 0 []).1,
   (version_echo_ignored none ([], []) ⟨IpAddr.V4 [127, 0, 0, 1], 80⟩ [0x61] 80
      0x00 0xFF 0x00 0 0 0 0 0 0 0 0 0 []).2.2.2 (by decide)⟩

end Socks5
